import Mathlib

/-!
Verification of the resultpy library: the `Result` container
(src/resultpy/result.py) and the safe executors with retry
(src/okresult/safe.py), shallowly embedded in Lean.

Modelling conventions:
* A caller-supplied zero-argument operation (a thunk) is embedded as a
  function `Nat → Outcome α ε`: invocation number `k` (0-based) either
  returns a value (`Outcome.val`) or raises an exception (`Outcome.exc`).
  Exceptions are opaque values of a type parameter `ε`.
* A raised exception escaping the executor as a fatal defect (`panic` in
  okresult/error.py) is embedded as the `Except.error` alternative of the
  run outcome, carrying the panic message and the triggering exception.
* Executors return a run record that also carries the observable trace the
  specification talks about: how many times the operation was invoked, how
  many times the retry predicate was invoked, and (asynchronously) the list
  of sleep durations actually requested, in order.
* Python's `delay_ms / 1000` produces a float; the model computes in `ℚ`.
  The delays occurring here are an integer scaled by small powers of two
  and divided by 1000, for which float multiplication by a power of two is
  exact, so the rational model preserves both the computed values' mutual
  relations and the sign test `delay > 0` used by the code.
-/

namespace ResultPy

/-- The two-variant container of src/resultpy/result.py: `Ok(value)` or
`Err(error)`, exactly one of the two, payload immutable. -/
inductive Result (α ε : Type) where
  | Ok : α → Result α ε
  | Err : ε → Result α ε
deriving DecidableEq

/-- `Result.is_ok` of result.py: `status == "ok"`. -/
def Result.is_ok {α ε : Type} : Result α ε → Bool
  | .Ok _ => true
  | .Err _ => false

/-- `Result.is_err` of result.py: `status == "err"`. -/
def Result.is_err {α ε : Type} : Result α ε → Bool
  | .Ok _ => false
  | .Err _ => true

/-- Modelled from the spec: equality on `Result` values. The copy of
resultpy/result.py under src is a partial snapshot (the members imported by
resultpy's init and used by its tests — `map`, `unwrap`, the equality used
by assertions such as `new_ok == Ok(10)` — are not in it), so the equality
operation itself is not under src. Spec section 3: equality is structural —
two `Ok` are equal iff their payloads are, same for `Err`, and `Ok` is
never equal to `Err`. -/
def result_eq {α ε : Type} [DecidableEq α] [DecidableEq ε] :
    Result α ε → Result α ε → Bool
  | .Ok a, .Ok b => decide (a = b)
  | .Err a, .Err b => decide (a = b)
  | _, _ => false

/-- Modelled from the spec: the `map` combinator. It is re-exported by
src/resultpy's init and exercised by src/tests/test_result.py, but its
defining code is not under src. Spec section 4.1: if `Ok(v)`, return
`Ok(f(v))`; if `Err(e)`, return `Err(e)` unchanged without invoking `f`. -/
def map {α β ε : Type} (r : Result α ε) (f : α → β) : Result β ε :=
  match r with
  | .Ok v => .Ok (f v)
  | .Err e => .Err e

/-- One invocation of caller-supplied code: it either returns a value or
raises an exception. -/
inductive Outcome (α ε : Type) where
  | val : α → Outcome α ε
  | exc : ε → Outcome α ε

/-- Modelled from the spec: `UnhandledException` of okresult/error.py (not
under src): the `Err` payload produced when no `catch` transform was
supplied. It wraps the original raised failure verbatim, a container and
not a transformation. -/
structure UnhandledException (ε : Type) where
  cause : ε
deriving DecidableEq

/-- `RetryConfig` of safe.py: both keys optional; `times` defaults to 0 and
`should_retry` defaults to the always-true predicate. The predicate is
caller code, so an invocation may itself raise (`Outcome.exc`). -/
structure RetryConfig (ρ ε : Type) where
  times : Option Nat := none
  should_retry : Option (ρ → Outcome Bool ε) := none

/-- `SafeConfig` of safe.py: an optional `retry` entry. -/
structure SafeConfig (ρ ε : Type) where
  retry : Option (RetryConfig ρ ε) := none

/-- The observable run of the synchronous `safe` executor: the final
outcome (`Except.error` being a fatal panic with message and triggering
exception), the number of operation invocations, and the number of retry
predicate invocations. -/
structure SafeRun (α ρ ε : Type) where
  outcome : Except (String × ε) (Result α ρ)
  opCalls : Nat
  predCalls : Nat

/-- `_always_retry` of safe.py, the default retry predicate: constant
true, never raising. -/
def always_retry {ρ ε : Type} (_ : ρ) : Outcome Bool ε := .val true

/-- Modelled from the spec: `try_or_panic` of okresult/result.py (not under
src). It runs the given caller code and, per spec sections 4.2 and 7,
escalates a raised exception as a fatal defect carrying the message and
the exception. -/
def try_or_panic {β ε : Type} (thunk : Outcome β ε) (msg : String) :
    Except (String × ε) β :=
  match thunk with
  | .val b => .ok b
  | .exc e => .error (msg, e)

/-- The `execute` closure of `safe` for a plain callable thunk: on normal
completion `Ok(value)`, on a raised exception
`Err(UnhandledException(e))`. It never panics. `k` is the invocation
number. -/
def executeThunk {α ε : Type} (op : Nat → Outcome α ε) (k : Nat) :
    Except (String × ε) (Result α (UnhandledException ε)) :=
  match op k with
  | .val a => .ok (.Ok a)
  | .exc e => .ok (.Err ⟨e⟩)

/-- The `execute` closure of `safe` for a `{try_, catch}` options dict: on
normal completion `Ok(value)`; on a raised exception the `catch` transform
is invoked with the original cause, its value becoming the `Err` payload;
if `catch` itself raises, that is a fatal defect (panic) with the given
message. -/
def executeOptions {α ρ ε : Type} (msg : String) (try_ : Nat → Outcome α ε)
    (catch_ : ε → Outcome ρ ε) (k : Nat) :
    Except (String × ε) (Result α ρ) :=
  match try_ k with
  | .val a => .ok (.Ok a)
  | .exc original_cause =>
    match catch_ original_cause with
    | .val e => .ok (.Err e)
    | .exc catch_handler_error => .error (msg, catch_handler_error)

/-- The retry loop of `safe` (safe.py lines 138-147): up to `fuel`
(= `times`) further iterations; stop on `Ok`; otherwise consult the retry
predicate under `try_or_panic` (a raising predicate is a fatal defect);
stop on false; on true re-execute. `k` counts invocations done so far,
`pcalls` predicate invocations done so far. -/
def safeLoop {α ρ ε : Type} (execute : Nat → Except (String × ε) (Result α ρ))
    (should_retry : ρ → Outcome Bool ε) :
    Nat → Nat → Result α ρ → Nat → SafeRun α ρ ε
  | 0, k, result, pcalls => ⟨.ok result, k, pcalls⟩
  | _ + 1, k, .Ok a, pcalls => ⟨.ok (.Ok a), k, pcalls⟩
  | fuel + 1, k, .Err e, pcalls =>
    match try_or_panic (should_retry e) "should_retry predicate threw" with
    | .error p => ⟨.error p, k, pcalls + 1⟩
    | .ok false => ⟨.ok (.Err e), k, pcalls + 1⟩
    | .ok true =>
      match execute k with
      | .error p => ⟨.error p, k + 1, pcalls + 1⟩
      | .ok r => safeLoop execute should_retry fuel (k + 1) r (pcalls + 1)

/-- Shared body of `safe` (safe.py lines 127-149): read `times` (default 0)
and `should_retry` (default `always_retry`) from the optional config,
execute once, then run the retry loop. -/
def runSafe {α ρ ε : Type} (execute : Nat → Except (String × ε) (Result α ρ))
    (config : Option (SafeConfig ρ ε)) : SafeRun α ρ ε :=
  let retry_config := config.bind (fun c => c.retry)
  let times := match retry_config with
    | none => 0
    | some rc => rc.times.getD 0
  let should_retry := match retry_config with
    | none => always_retry
    | some rc => rc.should_retry.getD always_retry
  match execute 0 with
  | .error p => ⟨.error p, 1, 0⟩
  | .ok r => safeLoop execute should_retry times 1 r 0

/-- `safe` of safe.py applied to a plain callable thunk. -/
def safe {α ε : Type} (op : Nat → Outcome α ε)
    (config : Option (SafeConfig (UnhandledException ε) ε)) :
    SafeRun α (UnhandledException ε) ε :=
  runSafe (executeThunk op) config

/-- `safe` of safe.py applied to a `{try_, catch}` options dict. -/
def safe_options {α ρ ε : Type} (try_ : Nat → Outcome α ε)
    (catch_ : ε → Outcome ρ ε) (config : Option (SafeConfig ρ ε)) :
    SafeRun α ρ ε :=
  runSafe (executeOptions "Result.safe catch handler threw" try_ catch_) config

/-- Backoff strategies of `RetryConfigAsync`. -/
inductive Backoff where
  | constant
  | linear
  | exponential
deriving DecidableEq

/-- `RetryConfigAsync` of safe.py: all keys optional; `times` defaults to
0, `delay_ms` to 0, `backoff` to `constant`, `should_retry` to the
always-true predicate. `delay_ms` is a Python int. -/
structure RetryConfigAsync (ρ ε : Type) where
  times : Option Nat := none
  delay_ms : Option Int := none
  backoff : Option Backoff := none
  should_retry : Option (ρ → Outcome Bool ε) := none

/-- `SafeConfigAsync` of safe.py: an optional `retry` entry. -/
structure SafeConfigAsync (ρ ε : Type) where
  retry : Option (RetryConfigAsync ρ ε) := none

/-- `get_delay` of safe.py (lines 209-219), in seconds as a rational:
0 with no retry config; otherwise `delay_ms/1000` for constant,
`delay_ms*(attempt+1)/1000` for linear, `delay_ms*2^attempt/1000` for
exponential, with `delay_ms` defaulting to 0 and `backoff` to constant. -/
def get_delay {ρ ε : Type} (attempt : Nat)
    (retry_config : Option (RetryConfigAsync ρ ε)) : ℚ :=
  match retry_config with
  | none => 0
  | some rc =>
    let delay_ms : Int := rc.delay_ms.getD 0
    match rc.backoff.getD .constant with
    | .constant => (delay_ms : ℚ) / 1000
    | .linear => ((delay_ms * (attempt + 1) : Int) : ℚ) / 1000
    | .exponential => ((delay_ms * 2 ^ attempt : Int) : ℚ) / 1000

/-- The observable run of `safe_async`: as `SafeRun`, plus the list of
durations passed to `asyncio.sleep`, in chronological order. -/
structure AsyncRun (α ρ ε : Type) where
  outcome : Except (String × ε) (Result α ρ)
  opCalls : Nat
  predCalls : Nat
  sleeps : List ℚ

/-- The retry loop of `safe_async` (safe.py lines 232-244): as `safeLoop`,
but when the predicate approves a retry the delay for the current
`attempt` index is computed and, when strictly positive, a sleep for it is
performed (recorded in order) before re-executing. -/
def safeAsyncLoop {α ρ ε : Type}
    (execute : Nat → Except (String × ε) (Result α ρ))
    (should_retry : ρ → Outcome Bool ε)
    (retry_config : Option (RetryConfigAsync ρ ε)) :
    Nat → Nat → Nat → Result α ρ → Nat → List ℚ → AsyncRun α ρ ε
  | 0, _, k, result, pcalls, sleeps => ⟨.ok result, k, pcalls, sleeps⟩
  | _ + 1, _, k, .Ok a, pcalls, sleeps => ⟨.ok (.Ok a), k, pcalls, sleeps⟩
  | fuel + 1, attempt, k, .Err e, pcalls, sleeps =>
    match try_or_panic (should_retry e) "should_retry predicate threw" with
    | .error p => ⟨.error p, k, pcalls + 1, sleeps⟩
    | .ok false => ⟨.ok (.Err e), k, pcalls + 1, sleeps⟩
    | .ok true =>
      let delay := get_delay attempt retry_config
      let sleeps' := if 0 < delay then sleeps ++ [delay] else sleeps
      match execute k with
      | .error p => ⟨.error p, k + 1, pcalls + 1, sleeps'⟩
      | .ok r =>
        safeAsyncLoop execute should_retry retry_config fuel (attempt + 1)
          (k + 1) r (pcalls + 1) sleeps'

/-- Shared body of `safe_async` (safe.py lines 221-246): read the optional
retry config, execute once, then run the delayed retry loop starting at
attempt index 0. -/
def runSafeAsync {α ρ ε : Type}
    (execute : Nat → Except (String × ε) (Result α ρ))
    (config : Option (SafeConfigAsync ρ ε)) : AsyncRun α ρ ε :=
  let retry_config := config.bind (fun c => c.retry)
  let times := match retry_config with
    | none => 0
    | some rc => rc.times.getD 0
  let should_retry := match retry_config with
    | none => always_retry
    | some rc => rc.should_retry.getD always_retry
  match execute 0 with
  | .error p => ⟨.error p, 1, 0, []⟩
  | .ok r => safeAsyncLoop execute should_retry retry_config times 0 1 r 0 []

/-- `safe_async` of safe.py applied to a plain callable thunk. -/
def safe_async {α ε : Type} (op : Nat → Outcome α ε)
    (config : Option (SafeConfigAsync (UnhandledException ε) ε)) :
    AsyncRun α (UnhandledException ε) ε :=
  runSafeAsync (executeThunk op) config

/-- `safe_async` of safe.py applied to a `{try_, catch}` options dict. -/
def safe_async_options {α ρ ε : Type} (try_ : Nat → Outcome α ε)
    (catch_ : ε → Outcome ρ ε) (config : Option (SafeConfigAsync ρ ε)) :
    AsyncRun α ρ ε :=
  runSafeAsync
    (executeOptions "Result.safe_async catch handler threw" try_ catch_) config

end ResultPy

namespace ResultPy

/-- For an always-failing thunk (invocation `j` raises `f j`) under a retry
predicate that always returns true, the retry loop entered after `k + 1`
invocations with the `Err` of invocation `k` performs `fuel` further
invocations and ends with the `Err` of the last one. -/
theorem safeLoop_always_fail {α ε : Type} (f : Nat → ε)
    (p : UnhandledException ε → Outcome Bool ε)
    (hp : ∀ e, p e = Outcome.val true) :
    ∀ fuel k pcalls : Nat,
      safeLoop (executeThunk (α := α) (fun j => Outcome.exc (f j))) p fuel
          (k + 1) (Result.Err ⟨f k⟩) pcalls =
        ⟨.ok (.Err ⟨f (fuel + k)⟩), fuel + k + 1, fuel + pcalls⟩ := by
  intro fuel
  induction fuel with
  | zero => intro k pcalls; simp [safeLoop]
  | succ n ih =>
    intro k pcalls
    simp only [safeLoop, try_or_panic, hp, executeThunk]
    rw [ih (k + 1) (pcalls + 1)]
    have h2 : n + (k + 1) = n + 1 + k := by omega
    have h3 : n + (pcalls + 1) = n + 1 + pcalls := by omega
    rw [h2, h3]

/-- C6: for every value `v`, error `e` and transform `f`: `map(Ok(v), f)`
equals `Ok(f(v))`, `map(Err(e), f)` equals `Err(e)`, and on an `Err` input
the transform is never consulted (the output does not depend on it). -/
theorem map_ok_err_spec {α β ε : Type} (v : α) (e : ε) (f : α → β) :
    map (ε := ε) (Result.Ok v) f = Result.Ok (f v) ∧
    map (ε := ε) (Result.Err e) f = Result.Err e ∧
    ∀ g : α → β, map (ε := ε) (Result.Err e) f = map (Result.Err e) g := by
  refine ⟨rfl, rfl, fun g => rfl⟩

/-- C7: equality of `Result` values is structural: `Ok(a) == Ok(b)` iff
`a == b`, `Err(a) == Err(b)` iff `a == b`, and an `Ok` is never equal to
an `Err` regardless of payloads. -/
theorem result_eq_structural {α ε : Type} [DecidableEq α] [DecidableEq ε]
    (a b : α) (c d : ε) :
    (result_eq (ε := ε) (Result.Ok a) (Result.Ok b) = true ↔ a = b) ∧
    (result_eq (α := α) (Result.Err c) (Result.Err d) = true ↔ c = d) ∧
    result_eq (Result.Ok a) (Result.Err c) = false ∧
    result_eq (Result.Err c) (Result.Ok a) = false := by
  refine ⟨?_, ?_, rfl, rfl⟩ <;> simp [result_eq]

/-- C1: for every operation that raises on every invocation (invocation
`j` raising `f j`), every `N ≥ 0` and the default retry predicate, `safe`
with `attempts = N` invokes the operation exactly `N + 1` times and
returns the `Err` produced by the last invocation, wrapping its
exception. -/
theorem safe_always_fail_run {α ε : Type} (f : Nat → ε) (N : Nat) :
    safe (α := α) (fun j => Outcome.exc (f j))
        (some ⟨some ⟨some N, none⟩⟩) =
      ⟨.ok (.Err ⟨f N⟩), N + 1, N⟩ := by
  have h := safeLoop_always_fail (α := α) f always_retry (fun _ => rfl) N 0 0
  simpa using h

/-- C9: for a `safe` execution with `attempts = N` over an always-failing
operation and a `should_retry` predicate that always returns true, the
predicate is invoked exactly `N` times (once between consecutive attempts,
never after the final attempt). -/
theorem safe_pred_called_times {α ε : Type} (f : Nat → ε) (N : Nat)
    (p : UnhandledException ε → Outcome Bool ε)
    (hp : ∀ e, p e = Outcome.val true) :
    (safe (α := α) (fun j => Outcome.exc (f j))
        (some ⟨some ⟨some N, some p⟩⟩)).predCalls = N := by
  have h := safeLoop_always_fail (α := α) f p hp N 0 0
  have h2 := congrArg SafeRun.predCalls h
  simpa using h2

/-- Witness for C9 at `N = 3` with a concrete always-true predicate: the
predicate is consulted exactly 3 times. -/
theorem safe_pred_called_times_witness :
    (safe (α := Nat) (fun j => Outcome.exc j)
        (some ⟨some ⟨some 3, some (fun _ => Outcome.val true)⟩⟩)).predCalls
      = 3 :=
  safe_pred_called_times (fun j => j) 3 (fun _ => Outcome.val true)
    (fun _ => rfl)

/-- C5: for every operation whose first invocation fails with `x`, every
`attempts = t + 1 > 0` and a `should_retry` predicate returning false on
that error, `safe` invokes the operation exactly once and returns the
first `Err`. -/
theorem safe_stops_when_pred_false {α ε : Type} (op : Nat → Outcome α ε)
    (x : ε) (h0 : op 0 = Outcome.exc x)
    (p : UnhandledException ε → Outcome Bool ε)
    (hp : p ⟨x⟩ = Outcome.val false) (t : Nat) :
    safe op (some ⟨some ⟨some (t + 1), some p⟩⟩) =
      ⟨.ok (.Err ⟨x⟩), 1, 1⟩ := by
  have he : executeThunk op 0 = .ok (.Err ⟨x⟩) := by
    unfold executeThunk; rw [h0]
  simp [safe, runSafe, he, safeLoop, try_or_panic, hp]

/-- Witness for C5: a concretely failing operation with a predicate that
declines the retry runs exactly once despite `attempts = 4`. -/
theorem safe_stops_when_pred_false_witness :
    safe (α := Nat) (fun _ => Outcome.exc 7)
        (some ⟨some ⟨some 4, some (fun _ => Outcome.val false)⟩⟩) =
      ⟨.ok (.Err ⟨7⟩), 1, 1⟩ :=
  safe_stops_when_pred_false (fun _ => Outcome.exc 7) 7 rfl
    (fun _ => Outcome.val false) rfl 3

/-- C2: for every `{try_, catch}` pair where `try_` raises and `catch`
itself raises, `safe` and `safe_async` never return an `Err`: they
escalate immediately as a fatal defect (panic) carrying the catch
handler's exception, regardless of the configured retry attempts. -/
theorem safe_catch_throws_panics {α ρ ε : Type} (try_ : Nat → Outcome α ε)
    (catch_ : ε → Outcome ρ ε) (x cx : ε)
    (h0 : try_ 0 = Outcome.exc x) (hc : catch_ x = Outcome.exc cx)
    (config : Option (SafeConfig ρ ε))
    (aconfig : Option (SafeConfigAsync ρ ε)) :
    safe_options try_ catch_ config =
      ⟨.error ("Result.safe catch handler threw", cx), 1, 0⟩ ∧
    safe_async_options try_ catch_ aconfig =
      ⟨.error ("Result.safe_async catch handler threw", cx), 1, 0, []⟩ := by
  have he : ∀ msg : String, executeOptions msg try_ catch_ 0 =
      .error (msg, cx) := by
    intro msg; simp only [executeOptions, h0, hc]
  constructor
  · simp [safe_options, runSafe, he]
  · simp [safe_async_options, runSafeAsync, he]

/-- Witness for C2: a concrete raising `try_` with a raising `catch`
panics at once in both executors, with 5 retry attempts configured. -/
theorem safe_catch_throws_panics_witness :
    safe_options (α := Nat) (ρ := Nat) (fun _ => Outcome.exc 1)
        (fun e => Outcome.exc (e + 1)) (some ⟨some ⟨some 5, none⟩⟩) =
      ⟨.error ("Result.safe catch handler threw", 2), 1, 0⟩ ∧
    safe_async_options (α := Nat) (ρ := Nat) (fun _ => Outcome.exc 1)
        (fun e => Outcome.exc (e + 1))
        (some ⟨some ⟨some 5, some 10, some Backoff.linear, none⟩⟩) =
      ⟨.error ("Result.safe_async catch handler threw", 2), 1, 0, []⟩ :=
  safe_catch_throws_panics (fun _ => Outcome.exc 1)
    (fun e => Outcome.exc (e + 1)) 1 2 rfl rfl
    (some ⟨some ⟨some 5, none⟩⟩)
    (some ⟨some ⟨some 5, some 10, some Backoff.linear, none⟩⟩)

/-- C4: for every plain operation raising `x`, `safe` returns
`Err(UnhandledException(x))` wrapping the raised object verbatim; and for
every `{try_, catch}` pair where `try_` raises `x` and `catch x` returns
`c` without raising, `safe` returns `Err(c)`. -/
theorem safe_err_payloads {α ρ ε : Type} (op try_ : Nat → Outcome α ε)
    (catch_ : ε → Outcome ρ ε) (x : ε) (c : ρ)
    (hop : op 0 = Outcome.exc x) (ht : try_ 0 = Outcome.exc x)
    (hc : catch_ x = Outcome.val c) :
    safe op none = ⟨.ok (.Err ⟨x⟩), 1, 0⟩ ∧
    safe_options try_ catch_ none = ⟨.ok (.Err c), 1, 0⟩ := by
  have he1 : executeThunk op 0 = .ok (.Err ⟨x⟩) := by
    unfold executeThunk; rw [hop]
  have he2 : executeOptions "Result.safe catch handler threw" try_ catch_ 0 =
      .ok (.Err c) := by
    simp only [executeOptions, ht, hc]
  constructor
  · simp [safe, runSafe, he1, safeLoop]
  · simp [safe_options, runSafe, he2, safeLoop]

/-- Witness for C4: a concrete raising operation yields
`Err(UnhandledException(9))`; a `{try_, catch}` pair with a returning
catch transform yields `Err` of the transform's value. -/
theorem safe_err_payloads_witness :
    safe (α := Nat) (fun _ => Outcome.exc 9) none =
      ⟨.ok (.Err ⟨9⟩), 1, 0⟩ ∧
    safe_options (α := Nat) (fun _ => Outcome.exc 9)
        (fun e => Outcome.val (e + 100)) none =
      ⟨.ok (.Err 109), 1, 0⟩ :=
  safe_err_payloads (fun _ => Outcome.exc 9) (fun _ => Outcome.exc 9)
    (fun e => Outcome.val (e + 100)) 9 109 rfl rfl rfl

/-- C3: for every asynchronous safe execution with exponential backoff,
positive base delay `d` milliseconds and `attempts = 3` over an
always-failing operation under the default predicate, the delays slept
before the second, third and fourth attempts are exactly `d`, `2d` and
`4d` (in seconds: the delay before retry `k` is `d/1000 * 2^attempt`,
`attempt` starting at 0), in that order. -/
theorem safe_async_exponential_delays {α ε : Type} (f : Nat → ε) (d : Int)
    (hd : 0 < d) :
    (safe_async (α := α) (fun j => Outcome.exc (f j))
        (some ⟨some ⟨some 3, some d, some Backoff.exponential, none⟩⟩)).sleeps
      = [(d : ℚ) / 1000, 2 * ((d : ℚ) / 1000), 4 * ((d : ℚ) / 1000)] := by
  have hdq : (0 : ℚ) < (d : ℚ) := by exact_mod_cast hd
  have g0 : get_delay (ρ := UnhandledException ε) (ε := ε) 0
      (some ⟨some 3, some d, some Backoff.exponential, none⟩) =
        (d : ℚ) / 1000 := by
    simp [get_delay]
  have g1 : get_delay (ρ := UnhandledException ε) (ε := ε) 1
      (some ⟨some 3, some d, some Backoff.exponential, none⟩) =
        2 * ((d : ℚ) / 1000) := by
    simp [get_delay]; ring
  have g2 : get_delay (ρ := UnhandledException ε) (ε := ε) 2
      (some ⟨some 3, some d, some Backoff.exponential, none⟩) =
        4 * ((d : ℚ) / 1000) := by
    simp [get_delay]
    ring
  have q0 : (0 : ℚ) < (d : ℚ) / 1000 := by positivity
  have q1 : (0 : ℚ) < 2 * ((d : ℚ) / 1000) := by positivity
  have q2 : (0 : ℚ) < 4 * ((d : ℚ) / 1000) := by positivity
  simp [safe_async, runSafeAsync, safeAsyncLoop, executeThunk, always_retry,
    try_or_panic, g0, g1, g2, q0, q1, q2]

/-- Witness for C3: base delay 100 ms yields sleeps of 100 ms, 200 ms and
400 ms, in order. -/
theorem safe_async_exponential_delays_witness :
    (safe_async (α := Nat) (fun j => Outcome.exc j)
        (some ⟨some ⟨some 3, some 100, some Backoff.exponential, none⟩⟩)).sleeps
      = [(100 : ℚ) / 1000, 2 * ((100 : ℚ) / 1000), 4 * ((100 : ℚ) / 1000)] :=
  safe_async_exponential_delays (fun j => j) 100 (by norm_num)

/-- If every delay `get_delay` can compute for the given retry config is
zero, the asynchronous retry loop never extends the list of performed
sleeps, whatever the operation, predicate and loop state. -/
theorem safeAsyncLoop_sleeps_of_zero_delay {α ρ ε : Type}
    (ex : Nat → Except (String × ε) (Result α ρ))
    (p : ρ → Outcome Bool ε) (rc : Option (RetryConfigAsync ρ ε))
    (h : ∀ a, get_delay a rc = 0) :
    ∀ (fuel attempt k : Nat) (r : Result α ρ) (pcalls : Nat)
      (sleeps : List ℚ),
      (safeAsyncLoop ex p rc fuel attempt k r pcalls sleeps).sleeps =
        sleeps := by
  intro fuel
  induction fuel with
  | zero => intro attempt k r pcalls sleeps; rfl
  | succ n ih =>
    intro attempt k r pcalls sleeps
    cases r with
    | Ok a => rfl
    | Err e =>
      simp only [safeAsyncLoop]
      cases hpe : p e with
      | exc pe => simp [try_or_panic, hpe]
      | val b =>
        cases b with
        | false => simp [try_or_panic, hpe]
        | true =>
          simp only [try_or_panic, hpe, h attempt, lt_irrefl, if_false]
          cases hek : ex k with
          | error q => simp [hek]
          | ok r2 => simp [hek, ih]

/-- The asynchronous executor performs no sleep at all when every delay
computable from its configuration is zero. -/
theorem runSafeAsync_sleeps_of_zero_delay {α ρ ε : Type}
    (ex : Nat → Except (String × ε) (Result α ρ))
    (config : Option (SafeConfigAsync ρ ε))
    (h : ∀ a, get_delay a (config.bind (fun c => c.retry)) = 0) :
    (runSafeAsync ex config).sleeps = [] := by
  unfold runSafeAsync
  rcases hex : ex 0 with q | r
  · simp [hex]
  · simp only [hex]
    exact safeAsyncLoop_sleeps_of_zero_delay ex _ _ h _ _ _ r _ _

/-- C8: for every asynchronous safe execution (plain thunk or
`{try_, catch}`) whose computed inter-attempt delay is zero for every
attempt index — which covers a configured base delay of zero and an unset
base delay alike — no sleep is performed before any attempt. -/
theorem safe_async_zero_delay_no_sleep {α ρ ε : Type}
    (op try_ : Nat → Outcome α ε) (catch_ : ε → Outcome ρ ε)
    (config : Option (SafeConfigAsync (UnhandledException ε) ε))
    (config2 : Option (SafeConfigAsync ρ ε))
    (h1 : ∀ a, get_delay a (config.bind (fun c => c.retry)) = 0)
    (h2 : ∀ a, get_delay a (config2.bind (fun c => c.retry)) = 0) :
    (safe_async op config).sleeps = [] ∧
    (safe_async_options try_ catch_ config2).sleeps = [] :=
  ⟨runSafeAsync_sleeps_of_zero_delay _ _ h1,
   runSafeAsync_sleeps_of_zero_delay _ _ h2⟩

/-- Witness for C8: with a base delay of zero (thunk form, exponential
backoff) and with an unset base delay (options form, linear backoff), two
always-failing retried executions sleep not at all. -/
theorem safe_async_zero_delay_no_sleep_witness :
    (safe_async (α := Nat) (fun j => Outcome.exc j)
        (some ⟨some ⟨some 2, some 0, some Backoff.exponential, none⟩⟩)).sleeps
      = [] ∧
    (safe_async_options (α := Nat) (ρ := Nat) (fun j => Outcome.exc j)
        (fun e => Outcome.val (e + 1))
        (some ⟨some ⟨some 2, none, some Backoff.linear, none⟩⟩)).sleeps
      = [] :=
  safe_async_zero_delay_no_sleep _ _ _ _ _
    (fun a => by simp [get_delay, Option.bind])
    (fun a => by simp [get_delay, Option.bind])

/-- C10: when the asynchronous retry configuration omits the `backoff`
field, `get_delay` behaves as the constant strategy: for every attempt
index it returns the configured base delay, identically to an explicit
`constant` backoff. -/
theorem get_delay_default_backoff_constant {ρ ε : Type} (attempt : Nat)
    (t : Option Nat) (d : Int) (p : Option (ρ → Outcome Bool ε)) :
    get_delay attempt (some ⟨t, some d, none, p⟩) = (d : ℚ) / 1000 ∧
    get_delay attempt (some ⟨t, some d, none, p⟩) =
      get_delay attempt (some ⟨t, some d, some Backoff.constant, p⟩) := by
  exact ⟨rfl, rfl⟩

end ResultPy
